import Mathlib

/-!
Verification of the Afrikaans Agent backend (`src/main.py`), a FastAPI
service that maps a query-type tag to a fixed Cypher template, runs it
against Neo4j, and streams results back as server-sent events.

The embedding models JSON values, the five query templates, the query
executor, the request handlers and the per-request event stream, each
translated directly from `main.py`.
-/

/-- JSON values, as produced by `json.dumps` on the Python dicts in
`main.py`.  Object fields keep Python dict insertion order; all numbers
occurring in the program are natural numbers (indices and counts). -/
inductive Json where
  | null : Json
  | bool : Bool → Json
  | num : Nat → Json
  | str : String → Json
  | arr : List Json → Json
  | obj : List (String × Json) → Json
deriving Repr

/-- Field lookup in a JSON object (first match, like Python dict access);
`none` on a missing key or a non-object. -/
def Json.getField : Json → String → Option Json
  | .obj fields, k => fields.lookup k
  | _, _ => none

namespace QueryProcessorNode

/-- The `"vocabulary"` entry of `patterns` in `generate_cypher_query`. -/
def vocabularyTemplate : String :=
  "\n                MATCH (w:Word \x7blanguage: \x27Afrikaans\x27\x7d)\n                WHERE toLower(w.english) CONTAINS toLower($topic) \n                   OR toLower(w.afrikaans) CONTAINS toLower($topic)\n                RETURN w.afrikaans as afrikaans, w.english as english, w.pronunciation as pronunciation\n                LIMIT 10\n            "

/-- The `"story"` entry of `patterns` in `generate_cypher_query`. -/
def storyTemplate : String :=
  "\n                MATCH (s:Story)\n                WHERE toLower(s.title) CONTAINS toLower($topic) \n                   OR toLower(s.content) CONTAINS toLower($topic)\n                RETURN s.title as title, s.content as content, s.difficulty as difficulty\n                LIMIT 5\n            "

/-- The `"culture"` entry of `patterns` in `generate_cypher_query`. -/
def cultureTemplate : String :=
  "\n                MATCH (c:CulturalItem)\n                WHERE toLower(c.name) CONTAINS toLower($topic) \n                   OR toLower(c.description) CONTAINS toLower($topic)\n                RETURN c.name as name, c.description as description, c.category as category\n                LIMIT 5\n            "

/-- The `"grammar"` entry of `patterns` in `generate_cypher_query`. -/
def grammarTemplate : String :=
  "\n                MATCH (g:GrammarRule)\n                WHERE toLower(g.rule) CONTAINS toLower($topic) \n                   OR toLower(g.explanation) CONTAINS toLower($topic)\n                RETURN g.rule as rule, g.explanation as explanation, g.examples as examples\n                LIMIT 5\n            "

/-- The `"general"` entry of `patterns` in `generate_cypher_query`. -/
def generalTemplate : String :=
  "\n                MATCH (n)\n                WHERE toLower(n.name) CONTAINS toLower($topic) \n                   OR toLower(n.content) CONTAINS toLower($topic)\n                   OR toLower(n.description) CONTAINS toLower($topic)\n                RETURN labels(n)[0] as type, n.name as name, n.content as content, n.description as description\n                LIMIT 10\n            "

/-- The `patterns` dictionary of `generate_cypher_query`, as a partial
lookup (`patterns.get(query_type, ...)`). -/
def patterns : String → Option String
  | "vocabulary" => some vocabularyTemplate
  | "story" => some storyTemplate
  | "culture" => some cultureTemplate
  | "grammar" => some grammarTemplate
  | "general" => some generalTemplate
  | _ => none

/-- `QueryProcessorNode.generate_cypher_query` from `main.py`: selects the
template for `query_type` via `patterns.get(query_type, patterns["general"])`.
The `topic` and `difficulty` arguments appear in the Python signature but are
never read by the function body. -/
def generate_cypher_query (query_type : String) (topic : String)
    (difficulty : String := "beginner") : String :=
  (patterns query_type).getD generalTemplate

end QueryProcessorNode

/-- A result row: one record returned by the database (or the synthetic
diagnostic row), materialized as a JSON object by `dict(record)`. -/
abbrev Row := Json

/-- The abstract Neo4j session: running a Cypher query with named parameters
either materializes a full list of rows or raises an error.  The driver is
external to the repository, so its behavior is an oracle argument. -/
abbrev RunOutcome := Except String (List Row)

namespace Neo4jNode

/-- `Neo4jNode.query` from `main.py`: runs the query inside a `try` block;
on success it returns the full materialized record list, and any raised
exception is caught and converted to the empty list. -/
def query (cypher_query : String) (parameters : List (String × Json))
    (run : String → List (String × Json) → RunOutcome) : List Row :=
  match run cypher_query parameters with
  | .ok records => records
  | .error _ => []

end Neo4jNode

/-- The `{'status': 'processing', 'query': topic}` event yielded first by
`generate_stream`. -/
def processingEvent (topic : String) : Json :=
  .obj [("status", .str "processing"), ("query", .str topic)]

/-- The `{'status': 'result', 'data': result, 'index': i}` event yielded
for each row by `generate_stream`. -/
def resultEvent (i : Nat) (r : Row) : Json :=
  .obj [("status", .str "result"), ("data", r), ("index", .num i)]

/-- The `{'status': 'complete', 'total_results': len(results)}` event
yielded last by `generate_stream`. -/
def completeEvent (total : Nat) : Json :=
  .obj [("status", .str "complete"), ("total_results", .num total)]

/-- The `for i, result in enumerate(results)` loop body of
`generate_stream`, with `i` the running index. -/
def resultEvents : Nat → List Row → List Json
  | _, [] => []
  | i, r :: rs => resultEvent i r :: resultEvents (i + 1) rs

/-- `generate_stream` from `query_knowledge_graph` in `main.py`: yields one
processing event, one result event per row of `results` in order with its
zero-based index, then one complete event with the total count. -/
def generate_stream (topic : String) (results : List Row) : List Json :=
  processingEvent topic :: (resultEvents 0 results ++ [completeEvent results.length])

theorem resultEvents_length (i : Nat) (rs : List Row) :
    (resultEvents i rs).length = rs.length := by
  induction rs generalizing i with
  | nil => rfl
  | cons r rs ih => simp [resultEvents, ih]

theorem resultEvents_getElem? (i : Nat) (rs : List Row) (j : Nat) (h : j < rs.length) :
    (resultEvents i rs)[j]? = some (resultEvent (i + j) (rs.get ⟨j, h⟩)) := by
  induction rs generalizing i j with
  | nil => simp at h
  | cons r rs ih =>
    cases j with
    | zero => simp [resultEvents]
    | succ j =>
      have hj : j < rs.length := Nat.lt_of_succ_lt_succ h
      have hi : i + 1 + j = i + (j + 1) := by omega
      have hget : (r :: rs).get ⟨j + 1, h⟩ = rs.get ⟨j, hj⟩ := rfl
      simp only [resultEvents, List.getElem?_cons_succ, ih (i + 1) j hj, hi, hget]

theorem generate_stream_length (topic : String) (rs : List Row) :
    (generate_stream topic rs).length = rs.length + 2 := by
  simp [generate_stream, resultEvents_length]

/-- The JSON body of a `POST /query` request as the handler reads it:
three optional fields, each accessed with `body.get(key, default)`.
A field absent from the request body is `none`. -/
structure RequestBody where
  query_type? : Option String
  topic? : Option String
  difficulty? : Option String

/-- `body.get("query_type", "general")` in `query_knowledge_graph`. -/
def requestQueryType (b : RequestBody) : String := b.query_type?.getD "general"

/-- `body.get("topic", "")` in `query_knowledge_graph`. -/
def requestTopic (b : RequestBody) : String := b.topic?.getD ""

/-- `body.get("difficulty", "beginner")` in `query_knowledge_graph`. -/
def requestDifficulty (b : RequestBody) : String := b.difficulty?.getD "beginner"

/-- The abstract database connection held by the process-scoped global
`neo4j_node`: running a Cypher query with parameters yields rows or raises. -/
abbrev DBConn := String → List (String × Json) → RunOutcome

/-- The mock row `{"message": "Neo4j not connected", "topic": topic,
"query_type": query_type}` built when `neo4j_node` is `None`. -/
def diagnosticRow (topic query_type : String) : Row :=
  .obj [("message", .str "Neo4j not connected"),
        ("topic", .str topic),
        ("query_type", .str query_type)]

/-- The `results` list computed by `query_knowledge_graph` in `main.py`:
fields are read with defaults, the Cypher query is generated, and then
either `neo4j_node.query(...)` runs (connection configured) or the single
synthetic diagnostic row is returned (`neo4j_node is None`). -/
def query_knowledge_graph_results (neo4j_node : Option DBConn)
    (body : RequestBody) : List Row :=
  let query_type := requestQueryType body
  let topic := requestTopic body
  let difficulty := requestDifficulty body
  let cypher_query :=
    QueryProcessorNode.generate_cypher_query query_type topic difficulty
  match neo4j_node with
  | some conn =>
      Neo4jNode.query cypher_query
        [("topic", .str topic), ("difficulty", .str difficulty)] conn
  | none => [diagnosticRow topic query_type]

/-- The full `POST /query` handler `query_knowledge_graph` in `main.py`:
the event stream produced for one request, one JSON event per SSE frame. -/
def query_knowledge_graph (neo4j_node : Option DBConn)
    (body : RequestBody) : List Json :=
  generate_stream (requestTopic body)
    (query_knowledge_graph_results neo4j_node body)

/-- The `GET /health` handler `health_check` in `main.py`. -/
def health_check (neo4j_node : Option DBConn) : Json :=
  .obj [("status", .str "healthy"),
        ("message", .str "Afrikaans Agent MCP Server is running!"),
        ("neo4j_connected", .bool neo4j_node.isSome)]

namespace MCPToolNode

/-- `MCPToolNode.get_tool_schema` from `main.py`, the MCP tool descriptor. -/
def get_tool_schema : Json :=
  .obj [("name", .str "query_afrikaans_knowledge_graph"),
        ("description", .str "Query the Afrikaans knowledge graph for educational content, stories, vocabulary, and cultural information"),
        ("inputSchema", .obj
          [("type", .str "object"),
           ("properties", .obj
             [("query_type", .obj
                [("type", .str "string"),
                 ("enum", .arr [.str "vocabulary", .str "story", .str "culture",
                                .str "grammar", .str "general"]),
                 ("description", .str "Type of Afrikaans content to search for")]),
              ("topic", .obj
                [("type", .str "string"),
                 ("description", .str "Specific topic or question about Afrikaans")]),
              ("difficulty", .obj
                [("type", .str "string"),
                 ("enum", .arr [.str "beginner", .str "intermediate",
                                .str "advanced"]),
                 ("default", .str "beginner")])]),
           ("required", .arr [.str "query_type", .str "topic"])])]

end MCPToolNode

/-- The `GET /tools` handler `get_tools` in `main.py`. -/
def get_tools : Json :=
  .obj [("tools", .arr [MCPToolNode.get_tool_schema])]

/-- Lookup of a path of field names through nested JSON objects. -/
def Json.getPath : Json → List String → Option Json
  | j, [] => some j
  | j, k :: ks =>
    match j.getField k with
    | some j2 => j2.getPath ks
    | none => none

/-- C1: for every finite list of result rows, `generate_stream` produces
exactly `len(results) + 2` events: first one processing event, then one
result event per row in list order carrying the row and its zero-based
index, and last one complete event carrying the total count; in particular
the stream for `[]` is exactly the 2 events processing-then-complete with
total 0, and the stream for `[r0, r1]` is exactly 4 events in order. -/
theorem C1_generate_stream_events (topic : String) (rs : List Row) :
    (generate_stream topic rs).length = rs.length + 2 ∧
    (generate_stream topic rs).head? = some (processingEvent topic) ∧
    (∀ i (h : i < rs.length),
      (generate_stream topic rs)[i + 1]? = some (resultEvent i (rs.get ⟨i, h⟩))) ∧
    (generate_stream topic rs).getLast? = some (completeEvent rs.length) ∧
    generate_stream topic ([] : List Row) = [processingEvent topic, completeEvent 0] ∧
    ∀ r0 r1 : Row, generate_stream topic [r0, r1] =
      [processingEvent topic, resultEvent 0 r0, resultEvent 1 r1, completeEvent 2] := by
  refine ⟨generate_stream_length topic rs, rfl, ?_, ?_, rfl, fun r0 r1 => rfl⟩
  · intro i h
    have hlen : i < (resultEvents 0 rs).length := by
      simpa [resultEvents_length] using h
    calc (generate_stream topic rs)[i + 1]?
        = (resultEvents 0 rs ++ [completeEvent rs.length])[i]? := by
          simp [generate_stream]
      _ = (resultEvents 0 rs)[i]? := by rw [List.getElem?_append, if_pos hlen]
      _ = some (resultEvent i (rs.get ⟨i, h⟩)) := by
          simpa using resultEvents_getElem? 0 rs i h
  · show (processingEvent topic ::
      (resultEvents 0 rs ++ [completeEvent rs.length])).getLast? = _
    rw [← List.cons_append]
    exact List.getLast?_concat _

/-- Witness for C1 at a concrete two-row input, discharging the index
bound hypothesis at index 1. -/
theorem C1_witness :
    (generate_stream "hello" [diagnosticRow "hello" "vocabulary",
                              diagnosticRow "x" "general"])[2]? =
      some (resultEvent 1
        (([diagnosticRow "hello" "vocabulary",
           diagnosticRow "x" "general"] : List Row).get ⟨1, by decide⟩)) :=
  (C1_generate_stream_events "hello"
    [diagnosticRow "hello" "vocabulary", diagnosticRow "x" "general"]).2.2.1
    1 (by decide)

theorem patterns_eq_none (q : String)
    (hq : q ∉ ["vocabulary", "story", "culture", "grammar", "general"]) :
    QueryProcessorNode.patterns q = none := by
  unfold QueryProcessorNode.patterns
  split <;> simp_all

/-- C2: `generate_cypher_query` is a total pure function on strings: each
of the five defined query types maps to its fixed template, and every
other string maps to the general template. -/
theorem C2_generate_cypher_query_total (topic difficulty : String) :
    QueryProcessorNode.generate_cypher_query "vocabulary" topic difficulty =
      QueryProcessorNode.vocabularyTemplate ∧
    QueryProcessorNode.generate_cypher_query "story" topic difficulty =
      QueryProcessorNode.storyTemplate ∧
    QueryProcessorNode.generate_cypher_query "culture" topic difficulty =
      QueryProcessorNode.cultureTemplate ∧
    QueryProcessorNode.generate_cypher_query "grammar" topic difficulty =
      QueryProcessorNode.grammarTemplate ∧
    QueryProcessorNode.generate_cypher_query "general" topic difficulty =
      QueryProcessorNode.generalTemplate ∧
    ∀ q : String, q ∉ ["vocabulary", "story", "culture", "grammar", "general"] →
      QueryProcessorNode.generate_cypher_query q topic difficulty =
        QueryProcessorNode.generalTemplate := by
  refine ⟨rfl, rfl, rfl, rfl, rfl, fun q hq => ?_⟩
  simp [QueryProcessorNode.generate_cypher_query, patterns_eq_none q hq]

/-- Witness for C2 at the concrete unknown query type `"pronunciation"`. -/
theorem C2_witness :
    QueryProcessorNode.generate_cypher_query "pronunciation" "hello" "beginner" =
      QueryProcessorNode.generalTemplate :=
  (C2_generate_cypher_query_total "hello" "beginner").2.2.2.2.2
    "pronunciation" (by decide)

/-- C3: whenever running the query raises any error, `Neo4jNode.query`
catches it and returns the empty list, never re-raising and never
returning a partial list, so its output there is indistinguishable from a
successful query with zero matches. -/
theorem C3_query_error_swallowed (cypher_query : String)
    (parameters : List (String × Json))
    (run : String → List (String × Json) → RunOutcome) (e : String)
    (h : run cypher_query parameters = .error e) :
    Neo4jNode.query cypher_query parameters run = [] ∧
    Neo4jNode.query cypher_query parameters run =
      Neo4jNode.query cypher_query parameters (fun _ _ => .ok []) := by
  constructor <;> simp [Neo4jNode.query, h]

/-- Witness for C3 with a session that always raises. -/
theorem C3_witness :
    Neo4jNode.query QueryProcessorNode.generalTemplate []
      (fun _ _ => .error "ServiceUnavailable") = [] :=
  (C3_query_error_swallowed QueryProcessorNode.generalTemplate []
    (fun _ _ => .error "ServiceUnavailable") "ServiceUnavailable" rfl).1

/-- C4: when `neo4j_node` is `None`, the query path returns a
single-element list holding the synthetic diagnostic row, for every
request body, without any database connection being consulted. -/
theorem C4_unconfigured_single_diagnostic (body : RequestBody) :
    query_knowledge_graph_results none body =
      [diagnosticRow (requestTopic body) (requestQueryType body)] ∧
    (query_knowledge_graph_results none body).length = 1 :=
  ⟨rfl, rfl⟩

/-- C5 counterexample: the health response has no field named
`database_connected`; the connection flag is the field `neo4j_connected`. -/
theorem C5_counterexample :
    (health_check none).getField "database_connected" = none ∧
    (health_check none).getField "neo4j_connected" = some (.bool false) :=
  ⟨rfl, rfl⟩

/-- C5 (amended): `GET /health` always returns an object with fields
`status`, `message` and `neo4j_connected`, where `neo4j_connected` is a
boolean reflecting whether the database connection is configured; before
any database configuration the response contains `status = "healthy"` and
`neo4j_connected = false`. -/
theorem C5_health_check_fields (neo4j_node : Option DBConn) :
    (health_check neo4j_node).getField "status" = some (.str "healthy") ∧
    (health_check neo4j_node).getField "message" =
      some (.str "Afrikaans Agent MCP Server is running!") ∧
    (health_check neo4j_node).getField "neo4j_connected" =
      some (.bool neo4j_node.isSome) ∧
    (health_check none).getField "neo4j_connected" = some (.bool false) :=
  ⟨rfl, rfl, rfl, rfl⟩

/-- C6: a `POST /query` with body `{"query_type": "vocabulary",
"topic": "hello"}` against an unconfigured database streams exactly 3
events, the last being `{"status": "complete", "total_results": 1}`. -/
theorem C6_vocabulary_hello_unconfigured :
    (query_knowledge_graph none ⟨some "vocabulary", some "hello", none⟩).length = 3 ∧
    (query_knowledge_graph none ⟨some "vocabulary", some "hello", none⟩).getLast? =
      some (.obj [("status", .str "complete"), ("total_results", .num 1)]) :=
  ⟨rfl, rfl⟩

/-- C7: missing request fields are tolerated by defaulting and never cause
the request to be rejected: a missing `query_type` defaults to
`"general"`, a missing `topic` to `""`, a missing `difficulty` to
`"beginner"`, and every request body yields a non-empty event stream. -/
theorem C7_missing_fields_defaulted (body : RequestBody) :
    (body.query_type? = none → requestQueryType body = "general") ∧
    (body.topic? = none → requestTopic body = "") ∧
    (body.difficulty? = none → requestDifficulty body = "beginner") ∧
    ∀ neo4j_node : Option DBConn, query_knowledge_graph neo4j_node body ≠ [] := by
  refine ⟨fun h => ?_, fun h => ?_, fun h => ?_, fun neo4j_node => ?_⟩
  · simp [requestQueryType, h]
  · simp [requestTopic, h]
  · simp [requestDifficulty, h]
  · simp [query_knowledge_graph, generate_stream]

/-- Witness for C7 at the empty request body. -/
theorem C7_witness :
    requestQueryType ⟨none, none, none⟩ = "general" ∧
    requestTopic ⟨none, none, none⟩ = "" ∧
    requestDifficulty ⟨none, none, none⟩ = "beginner" :=
  ⟨(C7_missing_fields_defaulted ⟨none, none, none⟩).1 rfl,
   (C7_missing_fields_defaulted ⟨none, none, none⟩).2.1 rfl,
   (C7_missing_fields_defaulted ⟨none, none, none⟩).2.2.1 rfl⟩

/-- C8: `GET /tools` returns exactly one tool descriptor, with fields
`name`, `description` and `inputSchema`; the input schema requires
`query_type` (an enum of the five types) and `topic` (a string), and
gives `difficulty` an enum with default `"beginner"`. -/
theorem C8_tools_descriptor :
    get_tools.getField "tools" = some (.arr [MCPToolNode.get_tool_schema]) ∧
    (MCPToolNode.get_tool_schema.getField "name").isSome = true ∧
    (MCPToolNode.get_tool_schema.getField "description").isSome = true ∧
    MCPToolNode.get_tool_schema.getPath ["inputSchema", "required"] =
      some (.arr [.str "query_type", .str "topic"]) ∧
    MCPToolNode.get_tool_schema.getPath
        ["inputSchema", "properties", "query_type", "enum"] =
      some (.arr [.str "vocabulary", .str "story", .str "culture",
                  .str "grammar", .str "general"]) ∧
    MCPToolNode.get_tool_schema.getPath
        ["inputSchema", "properties", "topic", "type"] = some (.str "string") ∧
    (MCPToolNode.get_tool_schema.getPath
        ["inputSchema", "properties", "difficulty", "enum"]).isSome = true ∧
    MCPToolNode.get_tool_schema.getPath
        ["inputSchema", "properties", "difficulty", "default"] =
      some (.str "beginner") :=
  ⟨rfl, rfl, rfl, rfl, rfl, rfl, rfl, rfl⟩

/-- C9: the generated Cypher query depends only on `query_type`; the
`topic` and `difficulty` arguments never flow into the returned string. -/
theorem C9_query_independent_of_topic_difficulty
    (query_type topic1 difficulty1 topic2 difficulty2 : String) :
    QueryProcessorNode.generate_cypher_query query_type topic1 difficulty1 =
      QueryProcessorNode.generate_cypher_query query_type topic2 difficulty2 :=
  rfl

/-- C10: when no database is configured, the synthetic diagnostic row is
exactly the mapping with keys `message`, `topic`, `query_type`, holding
the fixed message and the request's defaulted topic and query type. -/
theorem C10_diagnostic_row_exact (body : RequestBody) :
    query_knowledge_graph_results none body =
      [Json.obj [("message", .str "Neo4j not connected"),
                 ("topic", .str (requestTopic body)),
                 ("query_type", .str (requestQueryType body))]] :=
  rfl
